import Mathlib

/-
Verification development for the TCP/IP port-forwarding core (tcpip.go) of a
secure remote-shell server. The Go source is shallowly embedded: Go strings
are modelled as lists of byte values (GoString), the SSH wire encoding used
by gossh.Marshal and gossh.Unmarshal is modelled byte for byte, the two
handlers DirectTCPIPHandler and ForwardedTCPHandler.HandleSSHRequest are
modelled as pure functions from an environment (abstracting the network and
callback collaborators) to an ordered list of observable events plus a
result, and the concurrent accept-loop lifecycle of one remote forward is
modelled as a labelled small-step transition system.
-/

/-- GoString models a Go string: a finite sequence of byte values. -/
abbrev GoString := List Nat

/-- gostr converts an ASCII Lean string literal to its GoString byte list. -/
def gostr (s : String) : GoString := s.data.map Char.toNat

/-- digitsAux is a fuel-bounded helper computing the decimal digit bytes of a
natural number, least significant digit last, as strconv.Itoa renders it. -/
def digitsAux : Nat → Nat → List Nat
  | 0, _ => []
  | fuel + 1, n => if n < 10 then [48 + n] else digitsAux fuel (n / 10) ++ [48 + n % 10]

/-- goItoa models strconv.Itoa (and strconv.FormatInt base 10) on a
nonnegative value: the decimal ASCII byte string of the number. -/
def goItoa (n : Nat) : GoString := digitsAux (n + 1) n

/-- goAtoi models strconv.Atoi with the error discarded, as the source does:
a nonempty all-digit string parses to its decimal value, anything else
yields the zero value that the ignored-error path leaves behind. -/
def goAtoi (s : GoString) : Nat :=
  if s ≠ [] ∧ ∀ d ∈ s, 48 ≤ d ∧ d ≤ 57 then s.foldl (fun a d => a * 10 + (d - 48)) 0 else 0

/-- goJoinHostPort models net.JoinHostPort: the host is wrapped in square
brackets when it contains a colon (byte 58), then host and port are joined
by a colon. -/
def goJoinHostPort (host portStr : GoString) : GoString :=
  if 58 ∈ host then (91 :: host ++ [93]) ++ 58 :: portStr else host ++ 58 :: portStr

/-- stripBrackets removes one matching pair of enclosing square brackets,
as net.SplitHostPort does for bracketed IPv6 hosts. -/
def stripBrackets (h : GoString) : GoString :=
  match h with
  | 91 :: rest => if rest.getLast? = some 93 then rest.dropLast else 91 :: rest
  | _ => h

/-- goSplitHostPort models net.SplitHostPort on the well-formed host:port
strings produced by net.JoinHostPort and by the String method of TCPAddr:
the string is split at its last colon and brackets are stripped from the
host part; a string with no colon is an error (none). Validation of other
malformed inputs is elided because the source only splits addresses that
the net package itself rendered. -/
def goSplitHostPort (s : GoString) : Option (GoString × GoString) :=
  if 58 ∈ s then
    some (stripBrackets (((s.reverse.dropWhile (fun b => !(b == 58))).drop 1).reverse),
          (s.reverse.takeWhile (fun b => !(b == 58))).reverse)
  else none

/-- u32encode is the 4-byte big-endian encoding of a uint32, as the ssh wire
format requires. -/
def u32encode (n : Nat) : List Nat := [n / 16777216 % 256, n / 65536 % 256, n / 256 % 256, n % 256]

/-- parseU32 reads a 4-byte big-endian uint32 from the head of a byte list. -/
def parseU32 : List Nat → Option (Nat × List Nat)
  | b0 :: b1 :: b2 :: b3 :: rest => some ((b0 * 256 + b1) * 65536 + (b2 * 256 + b3), rest)
  | _ => none

/-- strEncode is the ssh wire encoding of a string field: uint32 length
followed by the raw bytes. -/
def strEncode (s : GoString) : List Nat := u32encode s.length ++ s

/-- parseString reads one length-prefixed string field from a byte list. -/
def parseString (bs : List Nat) : Option (GoString × List Nat) :=
  match parseU32 bs with
  | none => none
  | some (n, rest) => if n ≤ rest.length then some (rest.take n, rest.drop n) else none

/-- localForwardChannelData embeds the direct-tcpip payload struct of
RFC4254 section 7.2 from the source. -/
structure localForwardChannelData where
  DestAddr : GoString
  DestPort : Nat
  OriginAddr : GoString
  OriginPort : Nat
deriving DecidableEq

/-- remoteForwardRequest embeds the tcpip-forward request payload struct. -/
structure remoteForwardRequest where
  BindAddr : GoString
  BindPort : Nat
deriving DecidableEq

/-- remoteForwardSuccess embeds the tcpip-forward success reply payload. -/
structure remoteForwardSuccess where
  BindPort : Nat
deriving DecidableEq

/-- remoteForwardCancelRequest embeds the cancel-tcpip-forward payload. -/
structure remoteForwardCancelRequest where
  BindAddr : GoString
  BindPort : Nat
deriving DecidableEq

/-- remoteForwardChannelData embeds the forwarded-tcpip channel-open
payload struct. -/
structure remoteForwardChannelData where
  DestAddr : GoString
  DestPort : Nat
  OriginAddr : GoString
  OriginPort : Nat
deriving DecidableEq

/-- marshalLocalForwardChannelData models gossh.Marshal on
localForwardChannelData: fields in declaration order. -/
def marshalLocalForwardChannelData (d : localForwardChannelData) : List Nat :=
  strEncode d.DestAddr ++ u32encode d.DestPort ++ strEncode d.OriginAddr ++ u32encode d.OriginPort

/-- unmarshalLocalForwardChannelData models gossh.Unmarshal into
localForwardChannelData, rejecting short or trailing data. -/
def unmarshalLocalForwardChannelData (bs : List Nat) : Option localForwardChannelData := do
  let (da, r1) ← parseString bs
  let (dp, r2) ← parseU32 r1
  let (oa, r3) ← parseString r2
  let (op, r4) ← parseU32 r3
  if r4 = [] then pure ⟨da, dp, oa, op⟩ else none

/-- marshalRemoteForwardRequest models gossh.Marshal on
remoteForwardRequest. -/
def marshalRemoteForwardRequest (d : remoteForwardRequest) : List Nat :=
  strEncode d.BindAddr ++ u32encode d.BindPort

/-- unmarshalRemoteForwardRequest models gossh.Unmarshal into
remoteForwardRequest. -/
def unmarshalRemoteForwardRequest (bs : List Nat) : Option remoteForwardRequest := do
  let (ba, r1) ← parseString bs
  let (bp, r2) ← parseU32 r1
  if r2 = [] then pure ⟨ba, bp⟩ else none

/-- marshalRemoteForwardSuccess models gossh.Marshal on
remoteForwardSuccess. -/
def marshalRemoteForwardSuccess (d : remoteForwardSuccess) : List Nat :=
  u32encode d.BindPort

/-- unmarshalRemoteForwardSuccess models gossh.Unmarshal into
remoteForwardSuccess. -/
def unmarshalRemoteForwardSuccess (bs : List Nat) : Option remoteForwardSuccess := do
  let (bp, r1) ← parseU32 bs
  if r1 = [] then pure ⟨bp⟩ else none

/-- marshalRemoteForwardCancelRequest models gossh.Marshal on
remoteForwardCancelRequest. -/
def marshalRemoteForwardCancelRequest (d : remoteForwardCancelRequest) : List Nat :=
  strEncode d.BindAddr ++ u32encode d.BindPort

/-- unmarshalRemoteForwardCancelRequest models gossh.Unmarshal into
remoteForwardCancelRequest. -/
def unmarshalRemoteForwardCancelRequest (bs : List Nat) : Option remoteForwardCancelRequest := do
  let (ba, r1) ← parseString bs
  let (bp, r2) ← parseU32 r1
  if r2 = [] then pure ⟨ba, bp⟩ else none

/-- marshalRemoteForwardChannelData models gossh.Marshal on
remoteForwardChannelData. -/
def marshalRemoteForwardChannelData (d : remoteForwardChannelData) : List Nat :=
  strEncode d.DestAddr ++ u32encode d.DestPort ++ strEncode d.OriginAddr ++ u32encode d.OriginPort

/-- unmarshalRemoteForwardChannelData models gossh.Unmarshal into
remoteForwardChannelData. -/
def unmarshalRemoteForwardChannelData (bs : List Nat) : Option remoteForwardChannelData := do
  let (da, r1) ← parseString bs
  let (dp, r2) ← parseU32 r1
  let (oa, r3) ← parseString r2
  let (op, r4) ← parseU32 r3
  if r4 = [] then pure ⟨da, dp, oa, op⟩ else none

/-- wfLocalForwardChannelData states that every field fits its wire type:
uint32 fields and string lengths are below 2 to the 32. -/
abbrev wfLocalForwardChannelData (d : localForwardChannelData) : Prop :=
  d.DestAddr.length < 4294967296 ∧ d.DestPort < 4294967296 ∧
    d.OriginAddr.length < 4294967296 ∧ d.OriginPort < 4294967296

/-- wfRemoteForwardRequest states the wire-type bounds of the fields. -/
abbrev wfRemoteForwardRequest (d : remoteForwardRequest) : Prop :=
  d.BindAddr.length < 4294967296 ∧ d.BindPort < 4294967296

/-- wfRemoteForwardSuccess states the wire-type bound of the field. -/
abbrev wfRemoteForwardSuccess (d : remoteForwardSuccess) : Prop :=
  d.BindPort < 4294967296

/-- wfRemoteForwardCancelRequest states the wire-type bounds of the fields. -/
abbrev wfRemoteForwardCancelRequest (d : remoteForwardCancelRequest) : Prop :=
  d.BindAddr.length < 4294967296 ∧ d.BindPort < 4294967296

/-- wfRemoteForwardChannelData states the wire-type bounds of the fields. -/
abbrev wfRemoteForwardChannelData (d : remoteForwardChannelData) : Prop :=
  d.DestAddr.length < 4294967296 ∧ d.DestPort < 4294967296 ∧
    d.OriginAddr.length < 4294967296 ∧ d.OriginPort < 4294967296

theorem parseU32_encode (n : Nat) (rest : List Nat) (h : n < 4294967296) :
    parseU32 (u32encode n ++ rest) = some (n, rest) := by
  simp [u32encode, parseU32]
  omega

theorem parseU32_encode_nil (n : Nat) (h : n < 4294967296) :
    parseU32 (u32encode n) = some (n, []) := by
  rw [← List.append_nil (u32encode n)]
  exact parseU32_encode n [] h

theorem parseString_encode (s : GoString) (rest : List Nat) (h : s.length < 4294967296) :
    parseString (strEncode s ++ rest) = some (s, rest) := by
  rw [strEncode, List.append_assoc]
  simp [parseString, parseU32_encode s.length (s ++ rest) h, List.take_left, List.drop_left]

theorem roundtrip_localForwardChannelData (d : localForwardChannelData)
    (h : wfLocalForwardChannelData d) :
    unmarshalLocalForwardChannelData (marshalLocalForwardChannelData d) = some d := by
  obtain ⟨h1, h2, h3, h4⟩ := h
  simp [marshalLocalForwardChannelData, unmarshalLocalForwardChannelData, List.append_assoc,
    parseString_encode, parseU32_encode, parseU32_encode_nil, h1, h2, h3, h4]

theorem roundtrip_remoteForwardRequest (d : remoteForwardRequest)
    (h : wfRemoteForwardRequest d) :
    unmarshalRemoteForwardRequest (marshalRemoteForwardRequest d) = some d := by
  obtain ⟨h1, h2⟩ := h
  simp [marshalRemoteForwardRequest, unmarshalRemoteForwardRequest, List.append_assoc,
    parseString_encode, parseU32_encode, parseU32_encode_nil, h1, h2]

theorem roundtrip_remoteForwardSuccess (d : remoteForwardSuccess)
    (h : wfRemoteForwardSuccess d) :
    unmarshalRemoteForwardSuccess (marshalRemoteForwardSuccess d) = some d := by
  have h1 : d.BindPort < 4294967296 := h
  simp [marshalRemoteForwardSuccess, unmarshalRemoteForwardSuccess, parseU32_encode_nil, h1]

theorem roundtrip_remoteForwardCancelRequest (d : remoteForwardCancelRequest)
    (h : wfRemoteForwardCancelRequest d) :
    unmarshalRemoteForwardCancelRequest (marshalRemoteForwardCancelRequest d) = some d := by
  obtain ⟨h1, h2⟩ := h
  simp [marshalRemoteForwardCancelRequest, unmarshalRemoteForwardCancelRequest, List.append_assoc,
    parseString_encode, parseU32_encode, parseU32_encode_nil, h1, h2]

theorem roundtrip_remoteForwardChannelData (d : remoteForwardChannelData)
    (h : wfRemoteForwardChannelData d) :
    unmarshalRemoteForwardChannelData (marshalRemoteForwardChannelData d) = some d := by
  obtain ⟨h1, h2, h3, h4⟩ := h
  simp [marshalRemoteForwardChannelData, unmarshalRemoteForwardChannelData, List.append_assoc,
    parseString_encode, parseU32_encode, parseU32_encode_nil, h1, h2, h3, h4]

theorem digitsAux_bounds (fuel : Nat) : ∀ n, n < fuel → ∀ d ∈ digitsAux fuel n, 48 ≤ d ∧ d ≤ 57 := by
  induction fuel with
  | zero => intro n h; omega
  | succ fuel ih =>
    intro n h d hd
    rw [digitsAux] at hd
    split at hd
    · simp at hd; omega
    · rw [List.mem_append] at hd
      rcases hd with h1 | h1
      · exact ih (n / 10) (by omega) d h1
      · simp at h1; omega

theorem digitsAux_ne_nil (fuel : Nat) : ∀ n, n < fuel → digitsAux fuel n ≠ [] := by
  induction fuel with
  | zero => intro n h; omega
  | succ fuel ih =>
    intro n h
    rw [digitsAux]
    split
    · simp
    · simp

theorem digitsAux_foldl (fuel : Nat) :
    ∀ n a, n < fuel →
      (digitsAux fuel n).foldl (fun a d => a * 10 + (d - 48)) a =
        a * 10 ^ (digitsAux fuel n).length + n := by
  induction fuel with
  | zero => intro n a h; omega
  | succ fuel ih =>
    intro n a h
    rw [digitsAux]
    split
    · simp
    · rw [List.foldl_append, ih (n / 10) a (by omega), List.length_append]
      simp [List.foldl]
      ring_nf
      omega

theorem goAtoi_goItoa (n : Nat) : goAtoi (goItoa n) = n := by
  rw [goAtoi, if_pos]
  · rw [goItoa, digitsAux_foldl (n + 1) n 0 (by omega)]; omega
  · exact ⟨digitsAux_ne_nil (n + 1) n (by omega), digitsAux_bounds (n + 1) n (by omega)⟩

theorem takeWhile_all_append (p : Nat → Bool) (c : Nat) (l2 : List Nat) :
    ∀ l1 : List Nat, (∀ x ∈ l1, p x = true) → p c = false →
      (l1 ++ c :: l2).takeWhile p = l1 := by
  intro l1
  induction l1 with
  | nil => intro _ hc; simp [List.takeWhile_cons, hc]
  | cons a l ih =>
    intro h hc
    rw [List.cons_append, List.takeWhile_cons, if_pos (h a (by simp))]
    rw [ih (fun x hx => h x (by simp [hx])) hc]

theorem portPart_append (xs ys : GoString) (h : ∀ y ∈ ys, (y == 58) = false) :
    ((xs ++ 58 :: ys).reverse.takeWhile (fun b => !(b == 58))).reverse = ys := by
  rw [List.reverse_append, List.reverse_cons]
  rw [List.append_assoc, List.singleton_append]
  rw [takeWhile_all_append _ 58 xs.reverse ys.reverse
    (fun x hx => by simp only [List.mem_reverse] at hx; simp [h x hx]) (by simp)]
  exact List.reverse_reverse ys

theorem goSplitHostPort_port (host d : GoString) (hd : ∀ y ∈ d, (y == 58) = false) :
    (goSplitHostPort (goJoinHostPort host d)).map Prod.snd = some d := by
  rw [goJoinHostPort]
  split
  · rw [goSplitHostPort, if_pos (by simp)]
    simp only [Option.map_some']
    rw [show (91 :: host ++ [93]) ++ 58 :: d = (91 :: (host ++ [93])) ++ 58 :: d by simp]
    rw [portPart_append _ _ hd]
  · rw [goSplitHostPort, if_pos (by simp)]
    simp only [Option.map_some']
    rw [portPart_append _ _ hd]

theorem goItoa_no_colon (n : Nat) : ∀ y ∈ goItoa n, (y == 58) = false := by
  intro y hy
  have := digitsAux_bounds (n + 1) n (by omega) y hy
  simp
  omega

/-- TCPAddr models the observable part of a resolved net.TCPAddr: the host
rendering of its IP and its port. -/
structure TCPAddr where
  host : GoString
  port : Nat
deriving DecidableEq

/-- tcpAddrString models the String method of net.TCPAddr, which joins the
host and the decimal port with net.JoinHostPort. -/
def tcpAddrString (a : TCPAddr) : GoString := goJoinHostPort a.host (goItoa a.port)

/-- Listener models a live net.Listener handle: an identity for tracking it
through the registry and close events, and the actual local address
returned by its Addr method (carrying the kernel-assigned port when the
requested port was 0). -/
structure Listener where
  id : Nat
  addr : TCPAddr
deriving DecidableEq

/-- RejectReason models the gossh channel-open rejection codes used by the
source: ConnectionFailed and Prohibited. -/
inductive RejectReason
  | connectionFailed
  | prohibited
deriving DecidableEq

/-- DEvent is one observable action of DirectTCPIPHandler, in program
order: a channel-open rejection, the authorization callback call, the
dial attempt, closing the dialed socket, accepting the channel, spawning
the request-discarding task, and spawning one relay copy direction. -/
inductive DEvent
  | reject (code : RejectReason) (msg : GoString)
  | authCall (destAddr : GoString) (destPort : Nat)
  | dialAttempt (dest : GoString)
  | closeDialed
  | channelAccepted
  | discardSpawned
  | relaySpawned
deriving DecidableEq

/-- DirectEnv abstracts the collaborators of one DirectTCPIPHandler call:
the raw channel-open payload, the error text gossh would report for it on
decode failure, the optional LocalPortForwardingCallback (with the
connection context already applied), and the outcomes of the dial and of
channel acceptance. -/
structure DirectEnv where
  extraData : List Nat
  unmarshalErrText : GoString
  localCallback : Option (GoString → Nat → Bool)
  dialOk : Bool
  dialErrText : GoString
  acceptOk : Bool

/-- localAuthorized models the guard condition of the source, line 35:
false when the callback is nil, otherwise the callback verdict on the
decoded destination. -/
def localAuthorized (cb : Option (GoString → Nat → Bool)) (d : localForwardChannelData) : Bool :=
  match cb with
  | none => false
  | some f => f d.DestAddr d.DestPort

/-- directTCPIPHandler models DirectTCPIPHandler (tcpip.go lines 28 to 66)
as the ordered list of its observable actions: decode, authorize, dial,
accept, then spawn the discard task and the two relay directions. -/
def directTCPIPHandler (env : DirectEnv) : List DEvent :=
  match unmarshalLocalForwardChannelData env.extraData with
  | none =>
    [.reject .connectionFailed (gostr "error parsing forward data: " ++ env.unmarshalErrText)]
  | some d =>
    let authEvs : List DEvent :=
      match env.localCallback with
      | none => []
      | some _ => [.authCall d.DestAddr d.DestPort]
    if localAuthorized env.localCallback d = false then
      authEvs ++ [.reject .prohibited (gostr "port forwarding is disabled")]
    else
      let dest := goJoinHostPort d.DestAddr (goItoa d.DestPort)
      if env.dialOk = false then
        authEvs ++ [.dialAttempt dest, .reject .connectionFailed env.dialErrText]
      else if env.acceptOk = false then
        authEvs ++ [.dialAttempt dest, .closeDialed]
      else
        authEvs ++ [.dialAttempt dest, .channelAccepted, .discardSpawned,
          .relaySpawned, .relaySpawned]

/-- CTEvent is one observable action of the per-connection forwarding task
spawned by the accept loop (tcpip.go lines 166 to 213). -/
inductive CTEvent
  | logOpenFail
  | closeConn
  | logInvalidLocal
  | logInvalidRemote
  | cbChanOpen (claddr craddr : Option TCPAddr)
  | logOpened
  | discardSpawned
  | relayRun
  | cbChanClosed (claddr craddr : Option TCPAddr)
  | logClosed
deriving DecidableEq

/-- ConnTaskEnv abstracts the collaborators of one per-connection task:
whether conn.OpenChannel succeeded, and the results of the two TCPAddr
type checks on the accepted socket addresses (none models a value that is
not a TCPAddr, which leaves the corresponding Go pointer nil). -/
structure ConnTaskEnv where
  openOk : Bool
  localTCP : Option TCPAddr
  remoteTCP : Option TCPAddr
deriving DecidableEq

/-- connTask models the body of the per-connection goroutine: on channel
open failure it logs and closes the socket; otherwise it runs both address
type checks (each failure logs and closes but does not return), then calls
the reverse-forwarding callback with signal 2 and whatever addresses
survived the checks, relays, and calls the callback with signal -2. -/
def connTask (env : ConnTaskEnv) : List CTEvent :=
  if env.openOk = false then [.logOpenFail, .closeConn]
  else
    (match env.localTCP with
     | some _ => []
     | none => [.logInvalidLocal, .closeConn]) ++
    (match env.remoteTCP with
     | some _ => []
     | none => [.logInvalidRemote, .closeConn]) ++
    [.cbChanOpen env.localTCP env.remoteTCP, .logOpened, .discardSpawned, .relayRun,
     .cbChanClosed env.localTCP env.remoteTCP, .logClosed]

/-- ReverseCBArgs packages one invocation of ReversePortForwardingCallback:
the two address arguments, the signal code, and whether a listener and a
connection were passed. -/
structure ReverseCBArgs where
  addr1 : Option TCPAddr
  addr2 : Option TCPAddr
  signal : Int
  hasListener : Bool
  hasConn : Bool
deriving DecidableEq

/-- REvent is one observable action of HandleSSHRequest in program order. -/
inductive REvent
  | logMsg
  | cbCall (args : ReverseCBArgs)
  | nilCallbackCall
  | listenAttempt (addr : TCPAddr)
  | insertForward (key : GoString) (lnId : Nat)
  | lookupForward (key : GoString) (found : Bool)
  | closeListener (lnId : Nat)
  | watcherSpawned
  | acceptLoopSpawned
deriving DecidableEq

/-- HandlerOutcome is the result of one HandleSSHRequest invocation: the
(handled, payload) pair it returns, or the fault reached by calling a nil
callback function value, from which no reply is ever returned. -/
inductive HandlerOutcome
  | reply (handled : Bool) (payload : List Nat)
  | nilCallbackFault
deriving DecidableEq

/-- GoMap models the forwards field of ForwardedTCPHandler, the map from
bind-address strings to listeners, as an association list of listener
identities. -/
abbrev GoMap := List (GoString × Nat)

/-- mapLookup models Go map indexing with the comma-ok form. -/
def mapLookup (m : GoMap) (k : GoString) : Option Nat :=
  match m with
  | [] => none
  | (k2, v) :: rest => if k2 = k then some v else mapLookup rest k

/-- mapInsert models Go map assignment: replace the binding when the key
is present, otherwise add it. -/
def mapInsert (m : GoMap) (k : GoString) (v : Nat) : GoMap :=
  match m with
  | [] => [(k, v)]
  | (k2, v2) :: rest => if k2 = k then (k, v) :: rest else (k2, v2) :: mapInsert rest k v

/-- HandlerEnv abstracts the collaborators of one HandleSSHRequest call:
the request type and payload, whether ReversePortForwardingCallback is
non-nil, the callback verdict function (meaningful only when the flag is
true), and the outcomes of net.ResolveTCPAddr and net.ListenTCP. -/
structure HandlerEnv where
  reqType : GoString
  payload : List Nat
  hasReverseCallback : Bool
  reverseCB : ReverseCBArgs → Bool
  resolveTCP : GoString → Option TCPAddr
  listenTCP : TCPAddr → Option Listener

/-- HandlerResult is the outcome of one HandleSSHRequest invocation
together with its ordered events and the registry contents after the
synchronous part of the call (goroutine effects are modelled separately
by the transition system below). -/
structure HandlerResult where
  events : List REvent
  outcome : HandlerOutcome
  forwards : GoMap
deriving DecidableEq

/-- handleSSHRequest models ForwardedTCPHandler.HandleSSHRequest (tcpip.go
lines 97 to 248): the tcpip-forward branch runs decode, nil-callback
check, address resolution, the signal-0 authorization query, listening,
the signal-1 call, the bound-port extraction through SplitHostPort and
Atoi on the listener address string, the registry insert under the
request-literal key, and the two goroutine spawns, then replies handled
with the marshalled bound port; the cancel-tcpip-forward branch runs
decode, address resolution, the registry lookup under the
request-literal key, the unconditional signal -1 callback call (a nil
callback fault when none is configured), and the close of a found
listener, then replies handled with no payload; any other type is not
handled. -/
def handleSSHRequest (env : HandlerEnv) (forwards0 : GoMap) : HandlerResult :=
  if env.reqType = gostr "tcpip-forward" then
    match unmarshalRemoteForwardRequest env.payload with
    | none => ⟨[.logMsg], .reply false [], forwards0⟩
    | some reqPayload =>
      if env.hasReverseCallback = false then
        ⟨[], .reply false (gostr "port forwarding is disabled"), forwards0⟩
      else
        let addrstr := goJoinHostPort reqPayload.BindAddr (goItoa reqPayload.BindPort)
        match env.resolveTCP addrstr with
        | none =>
          ⟨[], .reply false (gostr "port forwarding disabled - invalid address requested"),
            forwards0⟩
        | some addr =>
          let queryArgs : ReverseCBArgs := ⟨some addr, none, 0, false, false⟩
          if env.reverseCB queryArgs = false then
            ⟨[.cbCall queryArgs], .reply false (gostr "port forwarding is rejected"), forwards0⟩
          else
            match env.listenTCP addr with
            | none =>
              ⟨[.cbCall queryArgs, .listenAttempt addr, .logMsg], .reply false [], forwards0⟩
            | some ln =>
              let destPortStr := ((goSplitHostPort (tcpAddrString ln.addr)).map Prod.snd).getD []
              let destPort := goAtoi destPortStr
              ⟨[.cbCall queryArgs, .listenAttempt addr, .logMsg,
                  .cbCall ⟨some addr, none, 1, true, false⟩,
                  .insertForward addrstr ln.id, .watcherSpawned, .acceptLoopSpawned],
                .reply true (marshalRemoteForwardSuccess ⟨destPort % 4294967296⟩),
                mapInsert forwards0 addrstr ln.id⟩
  else if env.reqType = gostr "cancel-tcpip-forward" then
    match unmarshalRemoteForwardCancelRequest env.payload with
    | none => ⟨[.logMsg], .reply false [], forwards0⟩
    | some reqPayload =>
      let addrstr := goJoinHostPort reqPayload.BindAddr (goItoa reqPayload.BindPort)
      match env.resolveTCP addrstr with
      | none =>
        ⟨[], .reply false (gostr "port forwarding cancellation rejected - invalid address requested"),
          forwards0⟩
      | some addr =>
        let found := mapLookup forwards0 addrstr
        if env.hasReverseCallback = false then
          ⟨[.lookupForward addrstr found.isSome, .nilCallbackCall], .nilCallbackFault, forwards0⟩
        else
          ⟨[.lookupForward addrstr found.isSome,
              .cbCall ⟨some addr, none, -1, false, false⟩] ++
              (match found with
               | some lnId => [.logMsg, .closeListener lnId]
               | none => []),
            .reply true [], forwards0⟩
  else ⟨[], .reply false [], forwards0⟩

/-- Phase tracks the control point of one tcpip-forward lifecycle: the
straight-line part of the handler after the authorization query succeeds
(before net.ListenTCP at line 125, before the registry insert at line 136,
before the accept-loop spawn at line 147), then the accept loop states
(the for loop at lines 149 to 214; draining after break; deleted after the
registry delete at line 217; done after the signal -1 callback at
line 219). -/
inductive Phase
  | preListen
  | preInsert
  | preSpawn
  | accepting
  | draining
  | deleted
  | done
deriving DecidableEq

/-- TaskPhase tracks one per-connection goroutine: started (spawned, before
conn.OpenChannel resolves), working (channel open, signal 2 emitted),
finished (returned, wait-group slot released). -/
inductive TaskPhase
  | started
  | working
  | finished
deriving DecidableEq

/-- Ev is a reverse-forwarding callback invocation observable in the
lifecycle trace: signal 2 (channel open), signal -2 (channel closed), and
the draining signal -1 (stopped) of the accept loop. -/
inductive Ev
  | sig2
  | sigNeg2
  | stopped
deriving DecidableEq

/-- MState is the state of one tcpip-forward lifecycle for one bind-address
key: the control phase, whether the listener is open (accepting), whether
the registry currently holds the entry for this key, history flags for the
two registry mutations, the per-connection task states, and the emitted
callback trace. -/
structure MState where
  phase : Phase
  lnOpen : Bool
  registered : Bool
  didInsert : Bool
  didDelete : Bool
  tasks : List TaskPhase
  events : List Ev
deriving DecidableEq

/-- Label names each atomic step of the lifecycle. -/
inductive Label
  | listen
  | insert
  | spawnLoop
  | acceptConn
  | acceptFail
  | taskOpenFail (i : Nat)
  | taskOpenOk (i : Nat)
  | taskFinish (i : Nat)
  | extClose
  | drainDelete
  | drainStopped
deriving DecidableEq

/-- isFinished decides the finished task phase. -/
def isFinished : TaskPhase → Bool
  | .finished => true
  | _ => false

/-- isStopped decides the stopped trace event. -/
def isStopped : Ev → Bool
  | .stopped => true
  | _ => false

/-- evIsSig2 decides the signal 2 trace event. -/
def evIsSig2 : Ev → Bool
  | .sig2 => true
  | _ => false

/-- Step is the atomic transition relation of one tcpip-forward lifecycle.
Each constructor models one atomic action of the source: listen is
net.ListenTCP succeeding (line 125); insert is the registry write under
lock (lines 135 to 137); spawnLoop starts the accept-loop goroutine
(line 147); acceptConn is ln.Accept returning a connection and the
wait-group add plus goroutine spawn (lines 150, 165, 166), possible only
while the listener is open; acceptFail is ln.Accept returning an error,
leaving the loop (lines 151 to 155); taskOpenFail is conn.OpenChannel
failing so the task returns without a signal 2 call (lines 168 to 172);
taskOpenOk is the channel opening and the signal 2 callback call
(line 189); taskFinish is the relay ending followed by the signal -2
callback and the deferred wait-group release (lines 209 to 212, 167);
extClose is ln.Close called by the cancel-tcpip-forward branch (line 242)
or by the context watcher (lines 138 to 146), both of which close only a
listener found in the registry; drainDelete is the wait-group wait and the
registry delete under lock (lines 215 to 218), enabled only when every
spawned task has finished; drainStopped is the signal -1 callback of the
draining step (line 219). -/
inductive Step : Label → MState → MState → Prop
  | listen (s : MState) (h : s.phase = .preListen) :
      Step .listen s { s with phase := .preInsert, lnOpen := true }
  | insert (s : MState) (h : s.phase = .preInsert) :
      Step .insert s { s with phase := .preSpawn, registered := true, didInsert := true }
  | spawnLoop (s : MState) (h : s.phase = .preSpawn) :
      Step .spawnLoop s { s with phase := .accepting }
  | acceptConn (s : MState) (h : s.phase = .accepting) (ho : s.lnOpen = true) :
      Step .acceptConn s { s with tasks := s.tasks ++ [.started] }
  | acceptFail (s : MState) (h : s.phase = .accepting) :
      Step .acceptFail s { s with phase := .draining }
  | taskOpenFail (s : MState) (i : Nat) (h : s.tasks.get? i = some .started) :
      Step (.taskOpenFail i) s { s with tasks := s.tasks.set i .finished }
  | taskOpenOk (s : MState) (i : Nat) (h : s.tasks.get? i = some .started) :
      Step (.taskOpenOk i) s
        { s with tasks := s.tasks.set i .working, events := s.events ++ [.sig2] }
  | taskFinish (s : MState) (i : Nat) (h : s.tasks.get? i = some .working) :
      Step (.taskFinish i) s
        { s with tasks := s.tasks.set i .finished, events := s.events ++ [.sigNeg2] }
  | extClose (s : MState) (h : s.registered = true) :
      Step .extClose s { s with lnOpen := false }
  | drainDelete (s : MState) (h : s.phase = .draining) (ht : s.tasks.all isFinished = true) :
      Step .drainDelete s { s with phase := .deleted, registered := false, didDelete := true }
  | drainStopped (s : MState) (h : s.phase = .deleted) :
      Step .drainStopped s { s with phase := .done, events := s.events ++ [.stopped] }

/-- initState is the lifecycle state just after the signal 0 authorization
query succeeded, before the listener exists. -/
def initState : MState := ⟨.preListen, false, false, false, false, [], []⟩

/-- Reach is reachability from initState under Step interleavings. -/
inductive Reach : MState → Prop
  | init : Reach initState
  | next {s s2 : MState} {l : Label} (hr : Reach s) (hs : Step l s s2) : Reach s2

/-- phaseAfterInsert decides whether the registry insert has happened by a
given control phase. -/
def phaseAfterInsert : Phase → Bool
  | .preListen | .preInsert => false
  | _ => true

/-- phaseAfterDelete decides whether the draining registry delete has
happened by a given control phase. -/
def phaseAfterDelete : Phase → Bool
  | .deleted | .done => true
  | _ => false

/-- regInv is the registry invariant tying the entry to the two mutation
points of the lifecycle. -/
def regInv (s : MState) : Prop :=
  s.didInsert = phaseAfterInsert s.phase ∧ s.didDelete = phaseAfterDelete s.phase ∧
    s.registered = (phaseAfterInsert s.phase && !phaseAfterDelete s.phase)

/-- badTrace detects a signal 2 event occurring anywhere after a stopped
event in a trace. -/
def badTrace : List Ev → Bool
  | [] => false
  | e :: rest => (isStopped e && rest.any evIsSig2) || badTrace rest

/-- traceInv is the temporal invariant: no signal 2 follows a stopped event,
a stopped event is only emitted in the final phase, and from the deleted
phase on every task has finished. -/
def traceInv (s : MState) : Prop :=
  badTrace s.events = false ∧
    (s.events.any isStopped = true → s.phase = .done) ∧
    ((s.phase = .deleted ∨ s.phase = .done) → s.tasks.all isFinished = true)

theorem regInv_reach (s : MState) (h : Reach s) : regInv s := by
  induction h with
  | init => simp [regInv, initState, phaseAfterInsert, phaseAfterDelete]
  | next hr hs ih =>
    obtain ⟨i1, i2, i3⟩ := ih
    cases hs with
    | listen s h2 => simp_all [regInv, phaseAfterInsert, phaseAfterDelete]
    | insert s h2 => simp_all [regInv, phaseAfterInsert, phaseAfterDelete]
    | spawnLoop s h2 => simp_all [regInv, phaseAfterInsert, phaseAfterDelete]
    | acceptConn s h2 ho => simp_all [regInv, phaseAfterInsert, phaseAfterDelete]
    | acceptFail s h2 => simp_all [regInv, phaseAfterInsert, phaseAfterDelete]
    | taskOpenFail s i h2 => simp_all [regInv, phaseAfterInsert, phaseAfterDelete]
    | taskOpenOk s i h2 => simp_all [regInv, phaseAfterInsert, phaseAfterDelete]
    | taskFinish s i h2 => simp_all [regInv, phaseAfterInsert, phaseAfterDelete]
    | extClose s h2 => simp_all [regInv, phaseAfterInsert, phaseAfterDelete]
    | drainDelete s h2 ht => simp_all [regInv, phaseAfterInsert, phaseAfterDelete]
    | drainStopped s h2 => simp_all [regInv, phaseAfterInsert, phaseAfterDelete]

theorem badTrace_cons (e : Ev) (l : List Ev) :
    badTrace (e :: l) = ((isStopped e && l.any evIsSig2) || badTrace l) := rfl

theorem badTrace_append (es : List Ev) (e : Ev) :
    badTrace (es ++ [e]) = (badTrace es || (es.any isStopped && evIsSig2 e)) := by
  induction es with
  | nil => cases e <;> simp [badTrace, isStopped, evIsSig2]
  | cons a es ih =>
    rw [List.cons_append, badTrace_cons, badTrace_cons, ih, List.any_append, List.any_cons,
      List.any_cons, List.any_nil]
    generalize isStopped a = p
    generalize evIsSig2 e = q
    generalize badTrace es = r
    generalize es.any isStopped = u
    generalize es.any evIsSig2 = v
    cases p <;> cases q <;> cases r <;> cases u <;> cases v <;> rfl

theorem all_isFinished_get (l : List TaskPhase) (i : Nat) (t : TaskPhase)
    (ha : l.all isFinished = true) (hg : l.get? i = some t) : t = TaskPhase.finished := by
  rw [List.all_eq_true] at ha
  have h2 := ha t (List.get?_mem hg)
  cases t
  · simp [isFinished] at h2
  · simp [isFinished] at h2
  · rfl

theorem traceInv_step {l : Label} {s s2 : MState} (ht : traceInv s) (hs : Step l s s2) :
    traceInv s2 := by
  obtain ⟨t1, t2, t3⟩ := ht
  cases hs with
  | listen _sq h2 =>
    exact ⟨t1, fun ha => absurd (h2.symm.trans (t2 ha)) (by decide),
      fun hph => by simp at hph⟩
  | insert _sq h2 =>
    exact ⟨t1, fun ha => absurd (h2.symm.trans (t2 ha)) (by decide),
      fun hph => by simp at hph⟩
  | spawnLoop _sq h2 =>
    exact ⟨t1, fun ha => absurd (h2.symm.trans (t2 ha)) (by decide),
      fun hph => by simp at hph⟩
  | acceptConn _sq h2 ho =>
    refine ⟨t1, fun ha => absurd (h2.symm.trans (t2 ha)) (by decide), fun hph => ?_⟩
    have hph2 : s.phase = Phase.deleted ∨ s.phase = Phase.done := hph
    rw [h2] at hph2
    simp at hph2
  | acceptFail _sq h2 =>
    exact ⟨t1, fun ha => absurd (h2.symm.trans (t2 ha)) (by decide),
      fun hph => by simp at hph⟩
  | taskOpenFail _sq i h2 =>
    refine ⟨t1, fun ha => t2 ha, fun hph => ?_⟩
    have hph2 : s.phase = Phase.deleted ∨ s.phase = Phase.done := hph
    exact absurd (all_isFinished_get _ i _ (t3 hph2) h2) (by decide)
  | taskOpenOk _sq i h2 =>
    have hstop : s.events.any isStopped = false := by
      cases hcase : s.events.any isStopped
      · rfl
      · have hall := t3 (Or.inr (t2 hcase))
        exact absurd (all_isFinished_get _ i _ hall h2) (by decide)
    refine ⟨?_, fun ha => ?_, fun hph => ?_⟩
    · show badTrace (s.events ++ [Ev.sig2]) = false
      rw [badTrace_append, t1, hstop]
      rfl
    · have ha2 : (s.events ++ [Ev.sig2]).any isStopped = true := ha
      rw [List.any_append, hstop] at ha2
      exact absurd ha2 (by decide)
    · have hph2 : s.phase = Phase.deleted ∨ s.phase = Phase.done := hph
      exact absurd (all_isFinished_get _ i _ (t3 hph2) h2) (by decide)
  | taskFinish _sq i h2 =>
    refine ⟨?_, fun ha => ?_, fun hph => ?_⟩
    · show badTrace (s.events ++ [Ev.sigNeg2]) = false
      rw [badTrace_append, t1]
      simp [evIsSig2]
    · have ha2 : (s.events ++ [Ev.sigNeg2]).any isStopped = true := ha
      rw [List.any_append] at ha2
      rw [show ([Ev.sigNeg2].any isStopped) = false from rfl, Bool.or_false] at ha2
      exact t2 ha2
    · have hph2 : s.phase = Phase.deleted ∨ s.phase = Phase.done := hph
      exact absurd (all_isFinished_get _ i _ (t3 hph2) h2) (by decide)
  | extClose _sq h2 =>
    exact ⟨t1, t2, t3⟩
  | drainDelete _sq h2 ht2 =>
    exact ⟨t1, fun ha => absurd (h2.symm.trans (t2 ha)) (by decide), fun _ => ht2⟩
  | drainStopped _sq h2 =>
    refine ⟨?_, fun _ => rfl, fun _ => t3 (Or.inl h2)⟩
    show badTrace (s.events ++ [Ev.stopped]) = false
    rw [badTrace_append, t1]
    simp [evIsSig2]

theorem traceInv_reach (s : MState) (h : Reach s) : traceInv s := by
  induction h with
  | init => exact ⟨rfl, by simp [initState], by simp [initState]⟩
  | next hr hs ih => exact traceInv_step ih hs

theorem badTrace_decomp (l2 : List Ev) :
    ∀ l1 : List Ev, badTrace (l1 ++ Ev.stopped :: l2) = false → Ev.sig2 ∉ l2 := by
  intro l1
  induction l1 with
  | nil =>
    intro h hmem
    rw [List.nil_append, badTrace_cons] at h
    have h3 : l2.any evIsSig2 = true := List.any_eq_true.mpr ⟨Ev.sig2, hmem, rfl⟩
    rw [h3] at h
    simp [isStopped] at h
  | cons a l1 ih =>
    intro h hmem
    rw [List.cons_append, badTrace_cons] at h
    rcases Bool.or_eq_false_iff.mp h with ⟨h1, h2⟩
    exact ih h2 hmem

/-- cexState is a reachable lifecycle state: the listener was created,
registered and the accept loop spawned, then the listener was closed by a
cancel-tcpip-forward (or by the context watcher) while the draining delete
of the accept loop has not yet run. -/
def cexState : MState :=
  ⟨.accepting, false, true, true, false, [], []⟩

/-- C2 (counterexample): the claim states that at every point a registry
entry for a bind-address string exists if and only if a listener for that
string is currently accepting connections. The reachable state cexState
refutes the claim as stated: after listen (line 125), insert (line 136),
the accept-loop spawn (line 147) and an external ln.Close (line 242 or
line 144), the registry entry still exists (registered = true) while the
listener is closed (lnOpen = false), because the delete happens only later
in the draining step (line 217). -/
theorem C2_counterexample :
    Reach cexState ∧ cexState.registered = true ∧ cexState.lnOpen = false := by
  refine ⟨?_, rfl, rfl⟩
  exact Reach.next (Reach.next (Reach.next (Reach.next Reach.init
    (Step.listen initState rfl)) (Step.insert _ rfl)) (Step.spawnLoop _ rfl))
    (Step.extClose _ rfl)

/-- C2 (amended): in every reachable lifecycle state the registry entry
for the key exists exactly when the insert of the successful tcpip-forward
has been performed and the draining delete of the accept loop has not yet
been performed (so the entry can outlive the open listener, and the
listener can briefly exist before the entry); and the only steps that ever
change registry membership are that insert and that draining delete, the
two mutations the source performs under the mutex. -/
theorem C2_registry_entry_mutations (s : MState) (h : Reach s) :
    (s.registered = true ↔ (s.didInsert = true ∧ s.didDelete = false)) ∧
    (∀ (l : Label) (s2 : MState), Step l s s2 → s2.registered ≠ s.registered →
      l = Label.insert ∨ l = Label.drainDelete) := by
  constructor
  · obtain ⟨i1, i2, i3⟩ := regInv_reach s h
    rw [i1, i2, i3]
    generalize phaseAfterInsert s.phase = a
    generalize phaseAfterDelete s.phase = b
    cases a <;> cases b <;> simp
  · intro l s2 hs hne
    cases hs with
    | listen _sq h2 => exact absurd rfl hne
    | insert _sq h2 => exact Or.inl rfl
    | spawnLoop _sq h2 => exact absurd rfl hne
    | acceptConn _sq h2 ho => exact absurd rfl hne
    | acceptFail _sq h2 => exact absurd rfl hne
    | taskOpenFail _sq i h2 => exact absurd rfl hne
    | taskOpenOk _sq i h2 => exact absurd rfl hne
    | taskFinish _sq i h2 => exact absurd rfl hne
    | extClose _sq h2 => exact absurd rfl hne
    | drainDelete _sq h2 ht => exact Or.inr rfl
    | drainStopped _sq h2 => exact absurd rfl hne

/-- c2WitState is the lifecycle state right after the listener was
created, before the registry insert. -/
def c2WitState : MState := ⟨.preInsert, true, false, false, false, [], []⟩

/-- C2 witness: the amended theorem applied at the reachable state
c2WitState, with the mutation part instantiated at the insert step
performed from that state (the one step from it that changes registry
membership). -/
theorem C2_registry_entry_mutations_witness :
    (c2WitState.registered = true ↔ (c2WitState.didInsert = true ∧ c2WitState.didDelete = false)) ∧
    (Label.insert = Label.insert ∨ Label.insert = Label.drainDelete) := by
  have hr : Reach c2WitState := Reach.next Reach.init (Step.listen initState rfl)
  refine ⟨(C2_registry_entry_mutations c2WitState hr).1, ?_⟩
  exact (C2_registry_entry_mutations c2WitState hr).2 Label.insert
    { c2WitState with phase := Phase.preSpawn, registered := true, didInsert := true }
    (Step.insert c2WitState rfl) (by decide)

/-- C5 (confirmed): in every reachable lifecycle state, no signal 2
(channel-open) callback event occurs in the trace after the stopped
(signal -1) callback of the draining step, and once the stopped callback
has been emitted every per-connection task spawned by the loop has
finished — the wait-group barrier (lwg.Wait, line 215) runs before the
stopped callback (line 219). -/
theorem C5_stopped_is_final (s : MState) (h : Reach s) :
    (∀ l1 l2 : List Ev, s.events = l1 ++ Ev.stopped :: l2 → Ev.sig2 ∉ l2) ∧
    (Ev.stopped ∈ s.events → ∀ t ∈ s.tasks, t = TaskPhase.finished) := by
  obtain ⟨t1, t2, t3⟩ := traceInv_reach s h
  constructor
  · intro l1 l2 hdec
    exact badTrace_decomp l2 l1 (hdec ▸ t1)
  · intro hmem t ht
    have h2 : s.events.any isStopped = true := List.any_eq_true.mpr ⟨Ev.stopped, hmem, rfl⟩
    have h3 := t3 (Or.inr (t2 h2))
    rw [List.all_eq_true] at h3
    have h4 := h3 t ht
    cases t
    · simp [isFinished] at h4
    · simp [isFinished] at h4
    · rfl

/-- c5RunState is the final state of one complete lifecycle run: one
connection accepted and forwarded, then the listener closed, the loop
drained and the stopped callback emitted. -/
def c5RunState : MState :=
  ⟨.done, false, false, true, true, [.finished], [.sig2, .sigNeg2, .stopped]⟩

/-- C5 witness: the theorem applied at the end state of a concrete
complete run, with the trace decomposition at its stopped event and the
task property instantiated at the single finished task of the run. -/
theorem C5_stopped_is_final_witness :
    Ev.sig2 ∉ ([] : List Ev) ∧ TaskPhase.finished = TaskPhase.finished := by
  have r1 := Reach.next Reach.init (Step.listen initState rfl)
  have r2 := Reach.next r1 (Step.insert _ rfl)
  have r3 := Reach.next r2 (Step.spawnLoop _ rfl)
  have r4 := Reach.next r3 (Step.acceptConn _ rfl rfl)
  have r5 := Reach.next r4 (Step.taskOpenOk _ 0 rfl)
  have r6 := Reach.next r5 (Step.taskFinish _ 0 rfl)
  have r7 := Reach.next r6 (Step.extClose _ rfl)
  have r8 := Reach.next r7 (Step.acceptFail _ rfl)
  have r9 := Reach.next r8 (Step.drainDelete _ rfl rfl)
  have hreach : Reach c5RunState := Reach.next r9 (Step.drainStopped _ rfl)
  exact ⟨(C5_stopped_is_final c5RunState hreach).1 [Ev.sig2, Ev.sigNeg2] [] rfl,
    (C5_stopped_is_final c5RunState hreach).2 (by decide) TaskPhase.finished (by decide)⟩

/-- C7 (confirmed): for every direct-tcpip channel-open whose payload fails
to decode as localForwardChannelData, the handler performs exactly one
action, the channel-open rejection with the ConnectionFailed code (the
code the source uses for parse failures) and the descriptive message
prefixed with the parse-error text — so no authorization callback, no
dial, no channel acceptance and no other side effect occurs. -/
theorem C7_decode_failure_rejects (env : DirectEnv)
    (hdec : unmarshalLocalForwardChannelData env.extraData = none) :
    directTCPIPHandler env =
      [DEvent.reject RejectReason.connectionFailed
        (gostr "error parsing forward data: " ++ env.unmarshalErrText)] := by
  simp only [directTCPIPHandler, hdec]

/-- c7Env is a direct-tcpip environment whose three payload bytes cannot
decode. -/
def c7Env : DirectEnv :=
  { extraData := [1, 2, 3]
    unmarshalErrText := gostr "ssh: unmarshal error"
    localCallback := some (fun _ _ => true)
    dialOk := true
    dialErrText := []
    acceptOk := true }

/-- C7 witness: the theorem applied to c7Env. -/
theorem C7_decode_failure_rejects_witness :
    directTCPIPHandler c7Env =
      [DEvent.reject RejectReason.connectionFailed
        (gostr "error parsing forward data: " ++ gostr "ssh: unmarshal error")] :=
  C7_decode_failure_rejects c7Env (by decide)

/-- C3 (confirmed): for every direct-tcpip channel-open whose payload
decodes, if the local forwarding callback is nil or rejects the
destination, the observable actions are exactly the authorization query
(absent when the callback is nil, since the nil test short-circuits)
followed by the rejection with the Prohibited code — and no dial attempt
occurs. -/
theorem C3_denied_no_dial (env : DirectEnv) (d : localForwardChannelData)
    (hdec : unmarshalLocalForwardChannelData env.extraData = some d)
    (hdeny : localAuthorized env.localCallback d = false) :
    directTCPIPHandler env =
      (match env.localCallback with
       | none => ([] : List DEvent)
       | some _ => [DEvent.authCall d.DestAddr d.DestPort]) ++
      [DEvent.reject RejectReason.prohibited (gostr "port forwarding is disabled")] ∧
    ∀ e ∈ directTCPIPHandler env, ∀ dest, e ≠ DEvent.dialAttempt dest := by
  have h1 : directTCPIPHandler env =
      (match env.localCallback with
       | none => ([] : List DEvent)
       | some _ => [DEvent.authCall d.DestAddr d.DestPort]) ++
      [DEvent.reject RejectReason.prohibited (gostr "port forwarding is disabled")] := by
    simp [directTCPIPHandler, hdec, hdeny]
  refine ⟨h1, ?_⟩
  rw [h1]
  intro e he dest
  cases hc : env.localCallback with
  | none =>
    rw [hc] at he
    simp at he
    rw [he]
    simp
  | some f =>
    rw [hc] at he
    simp at he
    rcases he with he | he <;> rw [he] <;> simp

/-- c3Env is a direct-tcpip environment with a decodable payload and a
callback that rejects every destination. -/
def c3Env : DirectEnv :=
  { extraData := marshalLocalForwardChannelData ⟨gostr "example.com", 80, gostr "origin", 54321⟩
    unmarshalErrText := []
    localCallback := some (fun _ _ => false)
    dialOk := true
    dialErrText := []
    acceptOk := true }

/-- C3 witness: the theorem applied to c3Env, with the dial-free property
instantiated at the first event of the run. -/
theorem C3_denied_no_dial_witness :
    directTCPIPHandler c3Env =
      [DEvent.authCall (gostr "example.com") 80,
        DEvent.reject RejectReason.prohibited (gostr "port forwarding is disabled")] ∧
    DEvent.authCall (gostr "example.com") 80 ≠ DEvent.dialAttempt (gostr "example.com") := by
  have h := C3_denied_no_dial c3Env ⟨gostr "example.com", 80, gostr "origin", 54321⟩
    (by decide) (by decide)
  exact ⟨h.1, h.2 (DEvent.authCall (gostr "example.com") 80) (by rw [h.1]; simp [c3Env])
    (gostr "example.com")⟩

/-- C9 (confirmed): in the per-connection forwarding task, when the
channel has been opened and the local or the remote address of the
accepted socket fails the TCPAddr type check, the socket is closed and the
failure logged, but the task continues: the signal 2 callback is still
invoked, carrying none (the nil Go pointer) for whichever address failed
the check. -/
theorem C9_addr_check_continues (env : ConnTaskEnv)
    (hopen : env.openOk = true)
    (hbad : env.localTCP = none ∨ env.remoteTCP = none) :
    CTEvent.closeConn ∈ connTask env ∧
    CTEvent.cbChanOpen env.localTCP env.remoteTCP ∈ connTask env ∧
    (env.localTCP = none → CTEvent.logInvalidLocal ∈ connTask env) ∧
    (env.remoteTCP = none → CTEvent.logInvalidRemote ∈ connTask env) := by
  have he : connTask env =
      (match env.localTCP with
       | some _ => ([] : List CTEvent)
       | none => [.logInvalidLocal, .closeConn]) ++
      (match env.remoteTCP with
       | some _ => ([] : List CTEvent)
       | none => [.logInvalidRemote, .closeConn]) ++
      [.cbChanOpen env.localTCP env.remoteTCP, .logOpened, .discardSpawned, .relayRun,
       .cbChanClosed env.localTCP env.remoteTCP, .logClosed] := by
    simp [connTask, hopen]
  rw [he]
  refine ⟨?_, by simp, fun hl => ?_, fun hr => ?_⟩
  · rcases hbad with hb | hb <;> rw [hb] <;> simp
  · rw [hl]; simp
  · rw [hr]; simp

/-- c9Env is a per-connection task environment where the channel opened
but the local address of the accepted socket is not a TCPAddr. -/
def c9Env : ConnTaskEnv :=
  { openOk := true, localTCP := none, remoteTCP := some ⟨gostr "10.0.0.5", 40000⟩ }

/-- C9 witness: the theorem applied to c9Env. -/
theorem C9_addr_check_continues_witness :
    CTEvent.closeConn ∈ connTask c9Env ∧
    CTEvent.cbChanOpen none (some ⟨gostr "10.0.0.5", 40000⟩) ∈ connTask c9Env ∧
    CTEvent.logInvalidLocal ∈ connTask c9Env := by
  have h := C9_addr_check_continues c9Env rfl (Or.inl rfl)
  exact ⟨h.1, h.2.1, h.2.2.1 rfl⟩

/-- C8 (confirmed): marshalling each of the five payload types with the
wire encoding and unmarshalling the result yields the original value field
for field, whenever every field fits its wire type (uint32 values and
string lengths below 2 to the 32). -/
theorem C8_roundtrip (a : localForwardChannelData) (b : remoteForwardRequest)
    (c : remoteForwardSuccess) (d : remoteForwardCancelRequest) (e : remoteForwardChannelData)
    (ha : wfLocalForwardChannelData a) (hb : wfRemoteForwardRequest b)
    (hc : wfRemoteForwardSuccess c) (hd : wfRemoteForwardCancelRequest d)
    (he : wfRemoteForwardChannelData e) :
    unmarshalLocalForwardChannelData (marshalLocalForwardChannelData a) = some a ∧
    unmarshalRemoteForwardRequest (marshalRemoteForwardRequest b) = some b ∧
    unmarshalRemoteForwardSuccess (marshalRemoteForwardSuccess c) = some c ∧
    unmarshalRemoteForwardCancelRequest (marshalRemoteForwardCancelRequest d) = some d ∧
    unmarshalRemoteForwardChannelData (marshalRemoteForwardChannelData e) = some e :=
  ⟨roundtrip_localForwardChannelData a ha, roundtrip_remoteForwardRequest b hb,
    roundtrip_remoteForwardSuccess c hc, roundtrip_remoteForwardCancelRequest d hd,
    roundtrip_remoteForwardChannelData e he⟩

/-- C8 witness: the round trips evaluated on concrete values of all five
payload types, including a bindPort 0 request and an IPv6 origin. -/
theorem C8_roundtrip_witness :
    unmarshalLocalForwardChannelData (marshalLocalForwardChannelData
      ⟨gostr "example.com", 80, gostr "::1", 54321⟩) =
      some ⟨gostr "example.com", 80, gostr "::1", 54321⟩ ∧
    unmarshalRemoteForwardRequest (marshalRemoteForwardRequest ⟨gostr "localhost", 0⟩) =
      some ⟨gostr "localhost", 0⟩ ∧
    unmarshalRemoteForwardSuccess (marshalRemoteForwardSuccess ⟨45678⟩) = some ⟨45678⟩ ∧
    unmarshalRemoteForwardCancelRequest (marshalRemoteForwardCancelRequest
      ⟨gostr "localhost", 0⟩) = some ⟨gostr "localhost", 0⟩ ∧
    unmarshalRemoteForwardChannelData (marshalRemoteForwardChannelData
      ⟨gostr "localhost", 45678, gostr "10.0.0.5", 40000⟩) =
      some ⟨gostr "localhost", 45678, gostr "10.0.0.5", 40000⟩ :=
  C8_roundtrip _ _ _ _ _ (by decide) (by decide) (by decide) (by decide) (by decide)

/-- C1 (confirmed): every tcpip-forward request that decodes, on a server
with a reverse callback, whose bind address resolves, whose signal 0
authorization query passes, and whose listener creation succeeds, is
answered handled (true) with a remoteForwardSuccess payload whose bound
port is the port extracted (via SplitHostPort and Atoi on the listener
address string) from the live listener local address — independent of the
requested BindPort, so a request with bindPort 0 reports the
kernel-assigned port. -/
theorem C1_bound_port_from_listener (env : HandlerEnv) (forwards0 : GoMap)
    (req : remoteForwardRequest) (addr : TCPAddr) (ln : Listener)
    (htype : env.reqType = gostr "tcpip-forward")
    (hdec : unmarshalRemoteForwardRequest env.payload = some req)
    (hcb : env.hasReverseCallback = true)
    (hres : env.resolveTCP (goJoinHostPort req.BindAddr (goItoa req.BindPort)) = some addr)
    (hauth : env.reverseCB ⟨some addr, none, 0, false, false⟩ = true)
    (hlisten : env.listenTCP addr = some ln)
    (hport : ln.addr.port < 4294967296) :
    (handleSSHRequest env forwards0).outcome =
      HandlerOutcome.reply true (marshalRemoteForwardSuccess ⟨ln.addr.port⟩) := by
  simp [handleSSHRequest, htype, hdec, hcb, hres, hauth, hlisten, tcpAddrString,
    goSplitHostPort_port ln.addr.host (goItoa ln.addr.port) (goItoa_no_colon ln.addr.port),
    goAtoi_goItoa, Nat.mod_eq_of_lt hport]

/-- c1Env is a tcpip-forward environment requesting bindPort 0 where the
kernel assigns port 45678 to the listener. -/
def c1Env : HandlerEnv :=
  { reqType := gostr "tcpip-forward"
    payload := marshalRemoteForwardRequest ⟨gostr "localhost", 0⟩
    hasReverseCallback := true
    reverseCB := fun _ => true
    resolveTCP := fun s =>
      if s = goJoinHostPort (gostr "localhost") (goItoa 0) then some ⟨gostr "127.0.0.1", 0⟩
      else none
    listenTCP := fun _ => some ⟨7, ⟨gostr "127.0.0.1", 45678⟩⟩ }

/-- C1 witness: the theorem applied to c1Env; the reported bound port is
the kernel-assigned 45678, not the requested 0. -/
theorem C1_bound_port_from_listener_witness :
    (handleSSHRequest c1Env []).outcome =
      HandlerOutcome.reply true (marshalRemoteForwardSuccess ⟨45678⟩) :=
  C1_bound_port_from_listener c1Env [] ⟨gostr "localhost", 0⟩ ⟨gostr "127.0.0.1", 0⟩
    ⟨7, ⟨gostr "127.0.0.1", 45678⟩⟩ rfl (by decide) rfl (by decide) rfl rfl (by decide)

/-- C4 (confirmed): for every cancel-tcpip-forward request that decodes
and whose bind address resolves, on a server with a reverse callback
configured, the stopped-mode (signal -1) callback invocation with the
resolved address occurs regardless of whether a registry entry matches,
a close event occurs exactly for a listener found under the request key,
and the reply is handled (true) with no payload in both cases. -/
theorem C4_cancel_unconditional_stop (env : HandlerEnv) (forwards0 : GoMap)
    (req : remoteForwardCancelRequest) (addr : TCPAddr)
    (htype : env.reqType = gostr "cancel-tcpip-forward")
    (hdec : unmarshalRemoteForwardCancelRequest env.payload = some req)
    (hcb : env.hasReverseCallback = true)
    (hres : env.resolveTCP (goJoinHostPort req.BindAddr (goItoa req.BindPort)) = some addr) :
    REvent.cbCall ⟨some addr, none, -1, false, false⟩ ∈ (handleSSHRequest env forwards0).events ∧
    (∀ lnId : Nat, REvent.closeListener lnId ∈ (handleSSHRequest env forwards0).events ↔
      mapLookup forwards0 (goJoinHostPort req.BindAddr (goItoa req.BindPort)) = some lnId) ∧
    (handleSSHRequest env forwards0).outcome = HandlerOutcome.reply true [] := by
  have hne : (gostr "cancel-tcpip-forward" = gostr "tcpip-forward") = False :=
    eq_false (by decide)
  cases hl : mapLookup forwards0 (goJoinHostPort req.BindAddr (goItoa req.BindPort)) with
  | none => simp [handleSSHRequest, htype, hne, hdec, hcb, hres, hl]
  | some lnId0 =>
    simp [handleSSHRequest, htype, hne, hdec, hcb, hres, hl]
    exact fun lnId => eq_comm

/-- c4Env is a cancel-tcpip-forward environment for localhost:8080 on a
server with a reverse callback. -/
def c4Env : HandlerEnv :=
  { reqType := gostr "cancel-tcpip-forward"
    payload := marshalRemoteForwardCancelRequest ⟨gostr "localhost", 8080⟩
    hasReverseCallback := true
    reverseCB := fun _ => true
    resolveTCP := fun s =>
      if s = goJoinHostPort (gostr "localhost") (goItoa 8080) then some ⟨gostr "127.0.0.1", 8080⟩
      else none
    listenTCP := fun _ => none }

/-- c4Map is a registry holding listener 3 under the localhost:8080 key. -/
def c4Map : GoMap := [(goJoinHostPort (gostr "localhost") (goItoa 8080), 3)]

/-- C4 witness: the theorem applied to c4Env over c4Map, with the close
biconditional instantiated at listener 3. -/
theorem C4_cancel_unconditional_stop_witness :
    REvent.cbCall ⟨some ⟨gostr "127.0.0.1", 8080⟩, none, -1, false, false⟩ ∈
      (handleSSHRequest c4Env c4Map).events ∧
    (REvent.closeListener 3 ∈ (handleSSHRequest c4Env c4Map).events ↔
      mapLookup c4Map (goJoinHostPort (gostr "localhost") (goItoa 8080)) = some 3) ∧
    (handleSSHRequest c4Env c4Map).outcome = HandlerOutcome.reply true [] := by
  have h := C4_cancel_unconditional_stop c4Env c4Map ⟨gostr "localhost", 8080⟩
    ⟨gostr "127.0.0.1", 8080⟩ rfl (by decide) rfl (by decide)
  exact ⟨h.1, h.2.1 3, h.2.2⟩

/-- C6 (confirmed): a successful tcpip-forward records the listener in the
registry under the literal key built by net.JoinHostPort from the request
fields (not under the resolved address or the kernel-assigned one), and a
cancel-tcpip-forward looks the registry up under the same literal key
built from its own request fields. -/
theorem C6_literal_registry_key (env1 env2 : HandlerEnv) (f1 f2 : GoMap)
    (req : remoteForwardRequest) (creq : remoteForwardCancelRequest)
    (addr1 addr2 : TCPAddr) (ln : Listener)
    (h1type : env1.reqType = gostr "tcpip-forward")
    (h1dec : unmarshalRemoteForwardRequest env1.payload = some req)
    (h1cb : env1.hasReverseCallback = true)
    (h1res : env1.resolveTCP (goJoinHostPort req.BindAddr (goItoa req.BindPort)) = some addr1)
    (h1auth : env1.reverseCB ⟨some addr1, none, 0, false, false⟩ = true)
    (h1listen : env1.listenTCP addr1 = some ln)
    (h2type : env2.reqType = gostr "cancel-tcpip-forward")
    (h2dec : unmarshalRemoteForwardCancelRequest env2.payload = some creq)
    (h2res : env2.resolveTCP (goJoinHostPort creq.BindAddr (goItoa creq.BindPort)) = some addr2) :
    (handleSSHRequest env1 f1).forwards =
      mapInsert f1 (goJoinHostPort req.BindAddr (goItoa req.BindPort)) ln.id ∧
    REvent.insertForward (goJoinHostPort req.BindAddr (goItoa req.BindPort)) ln.id ∈
      (handleSSHRequest env1 f1).events ∧
    REvent.lookupForward (goJoinHostPort creq.BindAddr (goItoa creq.BindPort))
      (mapLookup f2 (goJoinHostPort creq.BindAddr (goItoa creq.BindPort))).isSome ∈
      (handleSSHRequest env2 f2).events := by
  have hne : (gostr "cancel-tcpip-forward" = gostr "tcpip-forward") = False :=
    eq_false (by decide)
  refine ⟨?_, ?_, ?_⟩
  · simp [handleSSHRequest, h1type, h1dec, h1cb, h1res, h1auth, h1listen]
  · simp [handleSSHRequest, h1type, h1dec, h1cb, h1res, h1auth, h1listen]
  · cases hc : env2.hasReverseCallback <;>
      simp [handleSSHRequest, h2type, hne, h2dec, h2res, hc]

/-- c6CancelEnv is a cancel-tcpip-forward environment for localhost:8080
used to observe the lookup key. -/
def c6CancelEnv : HandlerEnv :=
  { reqType := gostr "cancel-tcpip-forward"
    payload := marshalRemoteForwardCancelRequest ⟨gostr "localhost", 8080⟩
    hasReverseCallback := true
    reverseCB := fun _ => true
    resolveTCP := fun s =>
      if s = goJoinHostPort (gostr "localhost") (goItoa 8080) then some ⟨gostr "127.0.0.1", 8080⟩
      else none
    listenTCP := fun _ => none }

/-- C6 witness: the theorem applied to c1Env (a bindPort 0 request whose
listener got kernel port 45678, so the literal key ends in the digit 0
while the listener port does not) and to c6CancelEnv over the empty
registry. -/
theorem C6_literal_registry_key_witness :
    (handleSSHRequest c1Env []).forwards =
      mapInsert [] (goJoinHostPort (gostr "localhost") (goItoa 0)) 7 ∧
    REvent.insertForward (goJoinHostPort (gostr "localhost") (goItoa 0)) 7 ∈
      (handleSSHRequest c1Env []).events ∧
    REvent.lookupForward (goJoinHostPort (gostr "localhost") (goItoa 8080))
      (mapLookup [] (goJoinHostPort (gostr "localhost") (goItoa 8080))).isSome ∈
      (handleSSHRequest c6CancelEnv []).events :=
  C6_literal_registry_key c1Env c6CancelEnv [] [] ⟨gostr "localhost", 0⟩
    ⟨gostr "localhost", 8080⟩ ⟨gostr "127.0.0.1", 0⟩ ⟨gostr "127.0.0.1", 8080⟩
    ⟨7, ⟨gostr "127.0.0.1", 45678⟩⟩ rfl (by decide) rfl (by decide) rfl rfl rfl (by decide)
    (by decide)

/-- C10 (confirmed): the cancel-tcpip-forward branch invokes
ReversePortForwardingCallback with no nil check: on a server with no
reverse callback, every cancel request that decodes and resolves reaches
the call of the nil function value and no reply is returned, while the
tcpip-forward branch on the same server answers not handled before ever
invoking the callback. -/
theorem C10_cancel_nil_callback_fault (env env2 : HandlerEnv) (forwards0 f2 : GoMap)
    (req : remoteForwardCancelRequest) (addr : TCPAddr) (req2 : remoteForwardRequest)
    (htype : env.reqType = gostr "cancel-tcpip-forward")
    (hdec : unmarshalRemoteForwardCancelRequest env.payload = some req)
    (hcb : env.hasReverseCallback = false)
    (hres : env.resolveTCP (goJoinHostPort req.BindAddr (goItoa req.BindPort)) = some addr)
    (h2type : env2.reqType = gostr "tcpip-forward")
    (h2dec : unmarshalRemoteForwardRequest env2.payload = some req2)
    (h2cb : env2.hasReverseCallback = false) :
    (handleSSHRequest env forwards0).outcome = HandlerOutcome.nilCallbackFault ∧
    REvent.nilCallbackCall ∈ (handleSSHRequest env forwards0).events ∧
    (handleSSHRequest env2 f2).outcome =
      HandlerOutcome.reply false (gostr "port forwarding is disabled") := by
  have hne : (gostr "cancel-tcpip-forward" = gostr "tcpip-forward") = False :=
    eq_false (by decide)
  refine ⟨?_, ?_, ?_⟩
  · simp [handleSSHRequest, htype, hne, hdec, hcb, hres]
  · simp [handleSSHRequest, htype, hne, hdec, hcb, hres]
  · simp [handleSSHRequest, h2type, h2dec, h2cb]

/-- c10Env is a cancel-tcpip-forward environment on a server with no
reverse callback configured. -/
def c10Env : HandlerEnv :=
  { reqType := gostr "cancel-tcpip-forward"
    payload := marshalRemoteForwardCancelRequest ⟨gostr "localhost", 8080⟩
    hasReverseCallback := false
    reverseCB := fun _ => true
    resolveTCP := fun s =>
      if s = goJoinHostPort (gostr "localhost") (goItoa 8080) then some ⟨gostr "127.0.0.1", 8080⟩
      else none
    listenTCP := fun _ => none }

/-- c10FwdEnv is a tcpip-forward environment on the same callback-free
server, showing the contrasting not-handled reply. -/
def c10FwdEnv : HandlerEnv :=
  { reqType := gostr "tcpip-forward"
    payload := marshalRemoteForwardRequest ⟨gostr "localhost", 8080⟩
    hasReverseCallback := false
    reverseCB := fun _ => true
    resolveTCP := fun _ => none
    listenTCP := fun _ => none }

/-- C10 witness: the theorem applied to c10Env and c10FwdEnv. -/
theorem C10_cancel_nil_callback_fault_witness :
    (handleSSHRequest c10Env []).outcome = HandlerOutcome.nilCallbackFault ∧
    REvent.nilCallbackCall ∈ (handleSSHRequest c10Env []).events ∧
    (handleSSHRequest c10FwdEnv []).outcome =
      HandlerOutcome.reply false (gostr "port forwarding is disabled") :=
  C10_cancel_nil_callback_fault c10Env c10FwdEnv [] [] ⟨gostr "localhost", 8080⟩
    ⟨gostr "127.0.0.1", 8080⟩ ⟨gostr "localhost", 8080⟩ rfl (by decide) rfl (by decide) rfl
    (by decide) rfl
